import Mathlib

/-!
Shallow embedding of `src/app.py` (CodeHelperRAG): a Streamlit app with a
component cache (`st.cache_resource`, TTL 3600s) for the document database and
code generator, result caches (`st.cache_data`, TTL 300s) for similarity search
and code generation, GPU memory management, and a performance monitor.

External effects (collaborator calls, monitor records, log lines, Streamlit UI
errors) are modelled as an explicit event trace; Python exceptions raised by
collaborators are modelled with `Except`.
-/

set_option maxRecDepth 8192

namespace CodeHelper

/-- Opaque handle for a `DocumentDatabase` instance (identity only). -/
structure DB where
  id : Nat
deriving DecidableEq, Repr

/-- Opaque handle for a `CodeGenerator` instance (identity only). -/
structure Gen where
  id : Nat
deriving DecidableEq, Repr

/-- A retrieved document; `page_content` as in `doc.page_content`. -/
structure Document where
  page_content : String
deriving DecidableEq, Repr

/-- Observable effects of the app code, in program order. -/
inductive Event where
  | monitorStart (name : String)
  | monitorEnd (name : String)
  | clearMemory
  | createOrLoadDb
  | createGenerator
  | refreshDatabase
  | similaritySearch (query : String) (k : Nat)
  | generate (prompt : String) (maxLength : Nat)
  | logError (msg : String)
  | stError (msg : String)
  | stSuccess (msg : String)
  | stStop
deriving DecidableEq, Repr

/-- The `@st.cache_resource(ttl=3600)` TTL on `init_components`. -/
def componentCacheTTL : Nat := 3600

/-- The `@st.cache_data(ttl=300)` TTL on `get_similar_docs` and `generate_code_cached`. -/
def resultCacheTTL : Nat := 300

/-- The fixed floor in `adjusted_length = max(500, prompt_length + 200)`. -/
def genLengthFloor : Nat := 500

/-- The fixed margin in `adjusted_length = max(500, prompt_length + 200)`. -/
def genLengthMargin : Nat := 200

/-- A cached value with its creation timestamp. -/
structure CacheEntry (V : Type) where
  value : V
  createdAt : Nat
deriving DecidableEq, Repr

/-- Streamlit data-cache storage: an association list keyed by call arguments. -/
structure Cache (K V : Type) where
  entries : List (K × CacheEntry V)
deriving DecidableEq, Repr

/-- Look up `k`; a hit requires `now - createdAt < ttl`. -/
def Cache.lookupValid [DecidableEq K] (c : Cache K V) (k : K) (now ttl : Nat) : Option V :=
  match c.entries.find? (fun p => decide (p.1 = k)) with
  | some p => if now - p.2.createdAt < ttl then some p.2.value else none
  | none => none

/-- Store `v` under `k` with a fresh `createdAt`, replacing any prior entry. -/
def Cache.insert [DecidableEq K] (c : Cache K V) (k : K) (v : V) (now : Nat) : Cache K V :=
  ⟨(k, ⟨v, now⟩) :: c.entries.filter (fun p => !decide (p.1 = k))⟩

def Cache.empty : Cache K V := ⟨[]⟩

/-- Call semantics of `st.cache_data`: on a valid hit return the cached value
without running the body; on a miss run the body and store the result only if
the body returns normally (an exception caches nothing). -/
def cacheDataCall [DecidableEq K] (c : Cache K V) (k : K) (now ttl : Nat)
    (compute : Unit → Except String V × List Event) :
    Except String V × Cache K V × List Event :=
  match c.lookupValid k now ttl with
  | some v => (Except.ok v, c, [])
  | none =>
    match compute () with
    | (Except.ok v, evs) => (Except.ok v, c.insert k v now, evs)
    | (Except.error e, evs) => (Except.error e, c, evs)

/-- Helper for `wordCount`: counts maximal non-whitespace runs; the flag
records whether the previous character was inside a word. -/
def splitWordsAux : List Char → Bool → Nat → Nat
  | [], _, n => n
  | c :: cs, inWord, n =>
    if c.isWhitespace then splitWordsAux cs false n
    else if inWord then splitWordsAux cs true n
    else splitWordsAux cs true (n + 1)

/-- Python `len(prompt.split())`: the number of maximal whitespace-separated
runs of the string. -/
def wordCount (s : String) : Nat := splitWordsAux s.data false 0

/-- The computation `adjusted_length = max(500, prompt_length + 200)` from `generate_code_cached`. -/
def adjusted_length (prompt : String) : Nat :=
  max genLengthFloor (wordCount prompt + genLengthMargin)

/-- Models `get_similar_docs(db, query, k)` under `@st.cache_data(ttl=300)`: key is
the argument tuple; on a miss the body wraps `db.similarity_search` in a
`"similarity_search"` monitor record (the closing `end` is skipped if the
search raises). -/
def get_similar_docs (cache : Cache (DB × String × Nat) (List Document)) (db : DB)
    (query : String) (k : Nat) (now : Nat)
    (search : String → Nat → Except String (List Document)) :
    Except String (List Document) × Cache (DB × String × Nat) (List Document) × List Event :=
  cacheDataCall cache (db, query, k) now resultCacheTTL (fun _ =>
    match search query k with
    | Except.ok docs =>
      (Except.ok docs,
        [Event.monitorStart "similarity_search", Event.similaritySearch query k,
         Event.monitorEnd "similarity_search"])
    | Except.error e =>
      (Except.error e,
        [Event.monitorStart "similarity_search", Event.similaritySearch query k]))

/-- Models `generate_code_cached(generator, prompt, max_length)` under
`@st.cache_data(ttl=300)`: key is the argument tuple with the caller's
`max_length`; the body calls `generator.generate_code(prompt,
max_length=adjusted_length)` inside a `"code_generation"` monitor record. -/
def generate_code_cached (cache : Cache (Gen × String × Nat) String) (generator : Gen)
    (prompt : String) (max_length : Nat) (now : Nat)
    (model : String → Nat → Except String String) :
    Except String String × Cache (Gen × String × Nat) String × List Event :=
  cacheDataCall cache (generator, prompt, max_length) now resultCacheTTL (fun _ =>
    match model prompt (adjusted_length prompt) with
    | Except.ok r =>
      (Except.ok r,
        [Event.monitorStart "code_generation",
         Event.generate prompt (adjusted_length prompt),
         Event.monitorEnd "code_generation"])
    | Except.error e =>
      (Except.error e,
        [Event.monitorStart "code_generation",
         Event.generate prompt (adjusted_length prompt)]))

/-- Result of `GPUtil.getGPUs()[0]` plus `torch.cuda` device queries. -/
structure GpuInfo where
  deviceName : String
  memoryUsedMB : Nat
  memoryTotalMB : Nat
  utilPercent : Nat
  cudaVersion : String
deriving DecidableEq, Repr

/-- Host environment for `get_system_stats`: whether CUDA is available, the
(possibly failing) GPU query, and the CPU/RAM readings. -/
structure SysEnv where
  cudaAvailable : Bool
  gpuQuery : Except String GpuInfo
  cpuPercent : Nat
  ramPercent : Nat

/-- Models `get_system_stats()`: GPU stats are attempted only when CUDA is available
and any failure is caught, logged via `logging.error`, and recorded as a
`"GPU Error"` entry; CPU/RAM stats are always appended. Totality of this
function is the embedding of "never raises". -/
def get_system_stats (env : SysEnv) : List (String × String) × List Event :=
  let gpu :=
    if env.cudaAvailable then
      match env.gpuQuery with
      | Except.ok g =>
        ([("GPU Device", g.deviceName),
          ("GPU Memory", toString g.memoryUsedMB ++ "MB / " ++ toString g.memoryTotalMB ++ "MB"),
          ("GPU Util", toString g.utilPercent ++ "%"),
          ("CUDA Ver", g.cudaVersion)], ([] : List Event))
      | Except.error e =>
        ([("GPU Error", e)], [Event.logError ("Error getting GPU stats: " ++ e)])
    else ([], [])
  (gpu.1 ++ [("CPU Usage", toString env.cpuPercent ++ "%"),
             ("RAM Usage", toString env.ramPercent ++ "%")], gpu.2)

/-- Environment for `init_components`: CUDA availability and the two
(possibly failing) construction steps. -/
structure BuildEnv where
  cudaAvailable : Bool
  buildDb : Except String DB
  buildGen : Except String Gen

/-- The body of `init_components`: opens the `"init_components"` record,
clears GPU memory when CUDA is available, constructs the database and the
generator; on any exception it logs, shows `st.error`, and returns
`(None, None)` (the monitor record is left open in that case). -/
def init_components_body (env : BuildEnv) : (Option DB × Option Gen) × List Event :=
  let pre := Event.monitorStart "init_components" ::
    (if env.cudaAvailable then [Event.clearMemory] else [])
  match env.buildDb with
  | Except.error e =>
    ((none, none),
      pre ++ [Event.createOrLoadDb,
        Event.logError ("Error initializing components: " ++ e),
        Event.stError ("Error initializing components: " ++ e)])
  | Except.ok db =>
    match env.buildGen with
    | Except.error e =>
      ((none, none),
        pre ++ [Event.createOrLoadDb, Event.createGenerator,
          Event.logError ("Error initializing components: " ++ e),
          Event.stError ("Error initializing components: " ++ e)])
    | Except.ok g =>
      ((some db, some g),
        pre ++ [Event.createOrLoadDb, Event.createGenerator,
          Event.monitorEnd "init_components"])

/-- The `st.cache_resource` slot holding the result of `init_components`. -/
structure ResourceCacheState where
  entry : Option (CacheEntry (Option DB × Option Gen))
deriving DecidableEq, Repr

/-- The `st.cache_resource` validity check: the stored value when the slot
holds an entry younger than the 3600s TTL, `none` otherwise. -/
def componentCacheLookup (cache : ResourceCacheState) (now : Nat) :
    Option (Option DB × Option Gen) :=
  match cache.entry with
  | some e => if now - e.createdAt < componentCacheTTL then some e.value else none
  | none => none

/-- Models `init_components` under `@st.cache_resource(ttl=3600)`: a valid entry is
returned without running the body; otherwise the body runs and whatever it
returns — including the `(None, None)` produced by its own exception handler —
is stored as the new entry. -/
def init_components (env : BuildEnv) (cache : ResourceCacheState) (now : Nat) :
    (Option DB × Option Gen) × ResourceCacheState × List Event :=
  match componentCacheLookup cache now with
  | some v => (v, cache, [])
  | none =>
    let r := init_components_body env
    (r.1, ⟨some ⟨r.1, now⟩⟩, r.2)

/-- The `"Refresh Documentation Database"` button handler: inside a try block
it opens the `"refresh_database"` record, rebuilds the database into the local
`db` variable, closes the record, shows `st.success`, and clears GPU memory
when CUDA is available; on exception it logs and shows `st.error`, leaving the
local `db` unchanged. It never touches the `st.cache_resource` slot. -/
def refresh_database_click (cudaAvailable : Bool) (refreshDb : Except String DB) (db : DB) :
    DB × List Event :=
  match refreshDb with
  | Except.ok newDb =>
    (newDb,
      [Event.monitorStart "refresh_database", Event.refreshDatabase,
       Event.monitorEnd "refresh_database",
       Event.stSuccess "Database refreshed successfully!"]
      ++ (if cudaAvailable then [Event.clearMemory] else []))
  | Except.error e =>
    (db,
      [Event.monitorStart "refresh_database", Event.refreshDatabase,
       Event.logError ("Error refreshing database: " ++ e),
       Event.stError ("Error refreshing database: " ++ e)])

/-- The two `st.cache_data` stores persisted by the host across reruns. -/
structure AppState where
  queryCache : Cache (DB × String × Nat) (List Document)
  genCache : Cache (Gen × String × Nat) String
deriving DecidableEq, Repr

/-- Outcome of the generate-button request block. -/
inductive ReqOutcome where
  | success (code : String) (explanation : Option String)
  | failure (msg : String)
deriving DecidableEq, Repr

/-- Environment for one request: CUDA availability, the collaborators, and the
sidebar settings. -/
structure ReqEnv where
  cudaAvailable : Bool
  search : String → Nat → Except String (List Document)
  model : String → Nat → Except String String
  language : String
  includeExplanation : Bool

/-- The f-string prompt assembled in `main`. -/
def build_prompt (language userQuery context : String) : String :=
  "\nLanguage: " ++ language ++ "\nTask: " ++ userQuery ++
  "\n\nReference Documentation:\n" ++ context ++
  "\n\nPlease generate code that follows best practices and includes comments.\n"

/-- The `if generate_button and user_query:` block of `main`: clear GPU memory,
retrieve documents (k defaults to 3), assemble the prompt, generate code,
optionally generate an explanation with requested length 300, clear GPU memory;
any exception is caught at the block's end, logged, and shown via `st.error`,
with all cache writes made so far kept. -/
def handle_request (env : ReqEnv) (s : AppState) (db : DB) (generator : Gen)
    (userQuery : String) (maxLength : Nat) (now : Nat) :
    ReqOutcome × AppState × List Event :=
  let pre := if env.cudaAvailable then [Event.clearMemory] else []
  let r1 := get_similar_docs s.queryCache db userQuery 3 now env.search
  match r1.1 with
  | Except.error e =>
    (ReqOutcome.failure e, ⟨r1.2.1, s.genCache⟩,
      pre ++ r1.2.2 ++
        [Event.logError ("Error during code generation: " ++ e),
         Event.stError ("An error occurred: " ++ e)])
  | Except.ok docs =>
    let context := String.intercalate "\n" (docs.map Document.page_content)
    let prompt := build_prompt env.language userQuery context
    let r2 := generate_code_cached s.genCache generator prompt maxLength now env.model
    match r2.1 with
    | Except.error e =>
      (ReqOutcome.failure e, ⟨r1.2.1, r2.2.1⟩,
        pre ++ r1.2.2 ++ r2.2.2 ++
          [Event.logError ("Error during code generation: " ++ e),
           Event.stError ("An error occurred: " ++ e)])
    | Except.ok code =>
      if env.includeExplanation then
        let r3 := generate_code_cached r2.2.1 generator
          ("Explain this " ++ env.language ++ " code:\n" ++ code) 300 now env.model
        match r3.1 with
        | Except.error e =>
          (ReqOutcome.failure e, ⟨r1.2.1, r3.2.1⟩,
            pre ++ r1.2.2 ++ r2.2.2 ++ r3.2.2 ++
              [Event.logError ("Error during code generation: " ++ e),
               Event.stError ("An error occurred: " ++ e)])
        | Except.ok expl =>
          (ReqOutcome.success code (some expl), ⟨r1.2.1, r3.2.1⟩,
            pre ++ r1.2.2 ++ r2.2.2 ++ r3.2.2 ++
              (if env.cudaAvailable then [Event.clearMemory] else []))
      else
        (ReqOutcome.success code none, ⟨r1.2.1, r2.2.1⟩,
          pre ++ r1.2.2 ++ r2.2.2 ++
            (if env.cudaAvailable then [Event.clearMemory] else []))

/-- Environment for one full rerun of `main`. -/
structure RunEnv where
  cudaAvailable : Bool
  buildDb : Except String DB
  buildGen : Except String Gen
  refreshDb : Except String DB
  search : String → Nat → Except String (List Document)
  model : String → Nat → Except String String
  language : String
  includeExplanation : Bool
  refreshPressed : Bool
  generatePressed : Bool
  userQuery : String
  maxLength : Nat

/-- Result of one rerun: `st.stop()` was hit, or the run finished (with the
request outcome when the generate block ran). -/
inductive RunResult where
  | stopped
  | finished (outcome : Option ReqOutcome)
deriving DecidableEq, Repr

/-- One rerun of `main` (core control flow): initialise components through the
resource cache, stop when a handle is `None`, run the refresh handler when its
button was pressed (rebinding only the local `db`), then run the generate
block when its button was pressed with a non-empty query. -/
def main (env : RunEnv) (rc : ResourceCacheState) (s : AppState) (now : Nat) :
    RunResult × ResourceCacheState × AppState × List Event :=
  let r0 := init_components ⟨env.cudaAvailable, env.buildDb, env.buildGen⟩ rc now
  match r0.1 with
  | (some db, some generator) =>
    let r1 := if env.refreshPressed
      then refresh_database_click env.cudaAvailable env.refreshDb db
      else (db, [])
    if env.generatePressed && env.userQuery != "" then
      let r2 := handle_request
        ⟨env.cudaAvailable, env.search, env.model, env.language, env.includeExplanation⟩
        s r1.1 generator env.userQuery env.maxLength now
      (RunResult.finished (some r2.1), r0.2.1, r2.2.1, r0.2.2 ++ r1.2 ++ r2.2.2)
    else
      (RunResult.finished none, r0.2.1, s, r0.2.2 ++ r1.2)
  | _ => (RunResult.stopped, r0.2.1, s, r0.2.2 ++ [Event.stStop])

/-! ### Helper lemmas -/

theorem lookupValid_insert_self [DecidableEq K] (c : Cache K V) (k : K) (v : V)
    (t0 now ttl : Nat) (ht : now - t0 < ttl) :
    (c.insert k v t0).lookupValid k now ttl = some v := by
  simp [Cache.insert, Cache.lookupValid, List.find?, ht]

theorem clearMemory_notin_search_trace (c : Cache (DB × String × Nat) (List Document))
    (db : DB) (q : String) (k now : Nat)
    (search : String → Nat → Except String (List Document)) :
    Event.clearMemory ∉ (get_similar_docs c db q k now search).2.2 := by
  unfold get_similar_docs cacheDataCall
  rcases h : Cache.lookupValid c (db, q, k) now resultCacheTTL with _ | v
  · rcases hs : search q k with e | docs <;> simp [h, hs]
  · simp [h]

theorem clearMemory_notin_generate_trace (c : Cache (Gen × String × Nat) String)
    (generator : Gen) (p : String) (ml now : Nat)
    (model : String → Nat → Except String String) :
    Event.clearMemory ∉ (generate_code_cached c generator p ml now model).2.2 := by
  unfold generate_code_cached cacheDataCall
  rcases h : Cache.lookupValid c (generator, p, ml) now resultCacheTTL with _ | v
  · rcases hm : model p (adjusted_length p) with e | r <;> simp [h, hm]
  · simp [h]

theorem handle_request_success_sandwich
    (env : ReqEnv) (s : AppState) (db : DB) (generator : Gen)
    (q : String) (ml now : Nat) (code : String) (expl : Option String)
    (hcuda : env.cudaAvailable = true)
    (hok : (handle_request env s db generator q ml now).1 = ReqOutcome.success code expl) :
    ∃ mid, (handle_request env s db generator q ml now).2.2
        = Event.clearMemory :: (mid ++ [Event.clearMemory]) ∧
      Event.clearMemory ∉ mid := by
  have h1nm := clearMemory_notin_search_trace s.queryCache db q 3 now env.search
  rcases h1 : get_similar_docs s.queryCache db q 3 now env.search with ⟨res1, qc1, ev1⟩
  rw [h1] at h1nm
  simp only at h1nm
  rcases res1 with e1 | docs
  · simp [handle_request, h1] at hok
  · have h2nm := clearMemory_notin_generate_trace s.genCache generator
      (build_prompt env.language q (String.intercalate "\n" (List.map Document.page_content docs)))
      ml now env.model
    rcases h2 : generate_code_cached s.genCache generator
        (build_prompt env.language q (String.intercalate "\n" (List.map Document.page_content docs)))
        ml now env.model with ⟨res2, gc2, ev2⟩
    rw [h2] at h2nm
    simp only at h2nm
    rcases res2 with e2 | code2
    · simp [handle_request, h1, h2] at hok
    · rcases hie : env.includeExplanation with _ | _
      · refine ⟨ev1 ++ ev2, ?_, ?_⟩
        · simp [handle_request, h1, h2, hcuda, hie]
        · simp [List.mem_append, h1nm, h2nm]
      · have h3nm := clearMemory_notin_generate_trace gc2 generator
          ("Explain this " ++ env.language ++ " code:\n" ++ code2) 300 now env.model
        rcases h3 : generate_code_cached gc2 generator
            ("Explain this " ++ env.language ++ " code:\n" ++ code2) 300 now env.model
          with ⟨res3, gc3, ev3⟩
        rw [h3] at h3nm
        simp only at h3nm
        rcases res3 with e3 | expl3
        · simp [handle_request, h1, h2, h3, hie] at hok
        · refine ⟨ev1 ++ (ev2 ++ ev3), ?_, ?_⟩
          · simp [handle_request, h1, h2, h3, hcuda, hie]
          · simp [List.mem_append, h1nm, h2nm, h3nm]

/-! ### Claims -/

/-- C9: the configuration constants are fixed at the spec's values — the
Component Cache TTL is 3600 seconds, the Query/Generation Result Cache TTLs are
300 seconds, the generation length floor is 500 and the margin is 200, and the
adjusted length computed by `generate_code_cached` is
`max 500 (wordCount prompt + 200)`. -/
theorem C9_configuration_constants :
    componentCacheTTL = 3600 ∧ resultCacheTTL = 300 ∧
    genLengthFloor = 500 ∧ genLengthMargin = 200 ∧
    (∀ prompt, adjusted_length prompt = max 500 (wordCount prompt + 200)) :=
  ⟨rfl, rfl, rfl, rfl, fun _ => rfl⟩

/-- C2: for every prompt and every caller-requested `max_length`, on a cache
miss the length actually passed to the model (the second event of the
`generate_code_cached` trace) is `adjusted_length prompt = max 500
(wordCount prompt + 200)`; it never goes below the 500 floor whatever the
requested value, a 50-word prompt yields 500 and a 400-word prompt yields
600. -/
theorem C2_effective_generation_length
    (cache : Cache (Gen × String × Nat) String) (generator : Gen)
    (prompt : String) (max_length now : Nat)
    (model : String → Nat → Except String String)
    (hmiss : cache.lookupValid (generator, prompt, max_length) now resultCacheTTL = none) :
    (generate_code_cached cache generator prompt max_length now model).2.2[1]?
      = some (Event.generate prompt (adjusted_length prompt)) ∧
    adjusted_length prompt = max 500 (wordCount prompt + 200) ∧
    genLengthFloor ≤ adjusted_length prompt ∧
    (wordCount prompt = 50 → adjusted_length prompt = 500) ∧
    (wordCount prompt = 400 → adjusted_length prompt = 600) := by
  refine ⟨?_, rfl, le_max_left _ _, ?_, ?_⟩
  · unfold generate_code_cached cacheDataCall
    rcases hm : model prompt (adjusted_length prompt) with e | r <;> simp [hmiss, hm]
  · intro h
    simp [adjusted_length, genLengthFloor, genLengthMargin, h]
  · intro h
    simp [adjusted_length, genLengthFloor, genLengthMargin, h]

/-- Witness for C2 at a concrete input: an empty cache misses, and the model
is invoked with the adjusted length. -/
theorem C2_effective_generation_length_witness :
    (Cache.empty : Cache (Gen × String × Nat) String).lookupValid
        (⟨0⟩, "hello world", 50) 0 resultCacheTTL = none ∧
    (generate_code_cached Cache.empty ⟨0⟩ "hello world" 50 0
        (fun _ _ => Except.ok "X")).2.2[1]?
      = some (Event.generate "hello world" (adjusted_length "hello world")) :=
  ⟨by decide,
   (C2_effective_generation_length Cache.empty ⟨0⟩ "hello world" 50 0
      (fun _ _ => Except.ok "X") (by decide)).1⟩

/-- C7: `get_system_stats` is best-effort — when the GPU query fails it still
returns a result (it is a total function) containing the CPU/RAM readings and
the error entry, the failure is reported as a `logging.error` diagnostic only,
and no `st.error` or `st.stop` occurs. -/
theorem C7_best_effort_system_stats (env : SysEnv) (e : String)
    (hc : env.cudaAvailable = true) (hq : env.gpuQuery = Except.error e) :
    (get_system_stats env).1
      = [("GPU Error", e),
         ("CPU Usage", toString env.cpuPercent ++ "%"),
         ("RAM Usage", toString env.ramPercent ++ "%")] ∧
    (get_system_stats env).2 = [Event.logError ("Error getting GPU stats: " ++ e)] ∧
    (∀ m, Event.stError m ∉ (get_system_stats env).2) ∧
    Event.stStop ∉ (get_system_stats env).2 := by
  unfold get_system_stats
  rw [hc, hq]
  simp

/-- Witness for C7 at a concrete input. -/
theorem C7_best_effort_system_stats_witness :
    (SysEnv.mk true (Except.error "cuda gone") 10 20).cudaAvailable = true ∧
    (get_system_stats ⟨true, Except.error "cuda gone", 10, 20⟩).1
      = [("GPU Error", "cuda gone"), ("CPU Usage", "10%"), ("RAM Usage", "20%")] :=
  ⟨rfl, (C7_best_effort_system_stats ⟨true, Except.error "cuda gone", 10, 20⟩
      "cuda gone" rfl rfl).1⟩

/-- C4: a value stored in the Query Result Cache or the Generation Result
Cache at `t0` is returned by a second `get` with a structurally equal key at
any `now` with `now - t0 < 300`, with the cache unchanged and an empty event
trace — in particular the Document Store and the Generation Model are not
invoked (no `similaritySearch` or `generate` event). -/
theorem C4_cache_hit_stability
    (qc : Cache (DB × String × Nat) (List Document))
    (gc : Cache (Gen × String × Nat) String)
    (db : DB) (generator : Gen) (query prompt : String) (k max_length t0 now : Nat)
    (docs : List Document) (code : String)
    (search : String → Nat → Except String (List Document))
    (model : String → Nat → Except String String)
    (ht : now - t0 < resultCacheTTL) :
    get_similar_docs (qc.insert (db, query, k) docs t0) db query k now search
      = (Except.ok docs, qc.insert (db, query, k) docs t0, []) ∧
    generate_code_cached (gc.insert (generator, prompt, max_length) code t0)
        generator prompt max_length now model
      = (Except.ok code, gc.insert (generator, prompt, max_length) code t0, []) := by
  constructor
  · unfold get_similar_docs cacheDataCall
    rw [lookupValid_insert_self _ _ _ _ _ _ ht]
  · unfold generate_code_cached cacheDataCall
    rw [lookupValid_insert_self _ _ _ _ _ _ ht]

/-- Witness for C4 at a concrete input: the collaborators are failing
functions, so a hit can only return the stored value without invoking them. -/
theorem C4_cache_hit_stability_witness :
    10 - 0 < resultCacheTTL ∧
    get_similar_docs
        ((Cache.empty : Cache (DB × String × Nat) (List Document)).insert
          (⟨0⟩, "q", 3) [⟨"d"⟩] 0) ⟨0⟩ "q" 3 10 (fun _ _ => Except.error "down")
      = (Except.ok [⟨"d"⟩],
         (Cache.empty : Cache (DB × String × Nat) (List Document)).insert
           (⟨0⟩, "q", 3) [⟨"d"⟩] 0, []) :=
  ⟨by decide,
   (C4_cache_hit_stability Cache.empty Cache.empty ⟨0⟩ ⟨0⟩ "q" "p" 3 500 0 10
      [⟨"d"⟩] "c" (fun _ _ => Except.error "down") (fun _ _ => Except.error "down")
      (by decide)).1⟩

/-- C5: the Generation Result Cache's key uses the caller-supplied requested
`max_length`: a miss stores the result under `(generator, prompt,
requestedMax)` even though the model was invoked at `adjusted_length prompt`,
and a second call with the same generator identity, prompt and requested
`max_length` within the TTL is a hit with no model invocation. -/
theorem C5_generation_cache_key_uses_requested_length
    (gc : Cache (Gen × String × Nat) String) (generator : Gen) (prompt : String)
    (requestedMax t0 t1 : Nat) (code : String)
    (model : String → Nat → Except String String)
    (h0 : gc.lookupValid (generator, prompt, requestedMax) t0 resultCacheTTL = none)
    (hm : model prompt (adjusted_length prompt) = Except.ok code)
    (ht : t1 - t0 < resultCacheTTL) :
    generate_code_cached gc generator prompt requestedMax t0 model
      = (Except.ok code, gc.insert (generator, prompt, requestedMax) code t0,
         [Event.monitorStart "code_generation",
          Event.generate prompt (adjusted_length prompt),
          Event.monitorEnd "code_generation"]) ∧
    generate_code_cached (gc.insert (generator, prompt, requestedMax) code t0)
        generator prompt requestedMax t1 model
      = (Except.ok code, gc.insert (generator, prompt, requestedMax) code t0, []) := by
  constructor
  · unfold generate_code_cached cacheDataCall
    simp [h0, hm]
  · unfold generate_code_cached cacheDataCall
    rw [lookupValid_insert_self _ _ _ _ _ _ ht]

/-- Witness for C5 at a concrete input: a 3-word prompt with requested length
50; the entry is stored under 50 while the model ran at 500. -/
theorem C5_generation_cache_key_uses_requested_length_witness :
    (Cache.empty : Cache (Gen × String × Nat) String).lookupValid
        (⟨0⟩, "sort a list", 50) 0 resultCacheTTL = none ∧
    generate_code_cached (Cache.empty : Cache (Gen × String × Nat) String)
        ⟨0⟩ "sort a list" 50 0 (fun _ _ => Except.ok "CODE")
      = (Except.ok "CODE",
         (Cache.empty : Cache (Gen × String × Nat) String).insert
           (⟨0⟩, "sort a list", 50) "CODE" 0,
         [Event.monitorStart "code_generation",
          Event.generate "sort a list" (adjusted_length "sort a list"),
          Event.monitorEnd "code_generation"]) :=
  ⟨by decide,
   (C5_generation_cache_key_uses_requested_length Cache.empty ⟨0⟩ "sort a list"
      50 0 7 "CODE" (fun _ _ => Except.ok "CODE") (by decide) rfl (by decide)).1⟩

/-- C1 counterexample: with a previously valid pair stored at time 0, a
construction failure at time 3600 (entry just expired) makes the cache store
the failed `(none, none)` pair as the new entry, and a call one second later
returns the poisoned `(none, none)` with an empty trace — no retry of
construction. This contradicts "the cache does not store a partial or failed
entry" and "a subsequent call may retry construction". -/
theorem C1_counterexample :
    (init_components ⟨true, Except.error "boom", Except.ok ⟨1⟩⟩
        ⟨some ⟨(some ⟨0⟩, some ⟨0⟩), 0⟩⟩ 3600).2.1
      = ⟨some ⟨(none, none), 3600⟩⟩ ∧
    init_components ⟨true, Except.error "boom", Except.ok ⟨1⟩⟩
        ⟨some ⟨(none, none), 3600⟩⟩ 3601
      = ((none, none), ⟨some ⟨(none, none), 3600⟩⟩, []) := by decide

/-- C1 amended: whenever construction fails (the body yields `(none, none)`)
and the slot has no valid entry, `init_components` reports the error via
`st.error`, returns `(none, none)`, and stores `(none, none)` as the new cache
entry; every call within the 3600s TTL after that returns the cached
`(none, none)` with an empty trace, without retrying construction. -/
theorem C1_construction_failure_poisons_cache
    (env : BuildEnv) (cache : ResourceCacheState) (now now' : Nat)
    (hfail : (init_components_body env).1 = (none, none))
    (hmiss : componentCacheLookup cache now = none)
    (ht : now' - now < componentCacheTTL) :
    (init_components env cache now).1 = (none, none) ∧
    (∃ msg, Event.stError msg ∈ (init_components env cache now).2.2) ∧
    (init_components env cache now).2.1 = ⟨some ⟨(none, none), now⟩⟩ ∧
    init_components env ⟨some ⟨(none, none), now⟩⟩ now'
      = ((none, none), ⟨some ⟨(none, none), now⟩⟩, []) := by
  have hlast : init_components env ⟨some ⟨(none, none), now⟩⟩ now'
      = ((none, none), ⟨some ⟨(none, none), now⟩⟩, []) := by
    simp [init_components, componentCacheLookup, ht]
  rcases hdb : env.buildDb with e | d
  · refine ⟨?_, ⟨"Error initializing components: " ++ e, ?_⟩, ?_, hlast⟩ <;>
      simp [init_components, init_components_body, hmiss, hdb]
  · rcases hg : env.buildGen with e | g
    · refine ⟨?_, ⟨"Error initializing components: " ++ e, ?_⟩, ?_, hlast⟩ <;>
        simp [init_components, init_components_body, hmiss, hdb, hg]
    · simp [init_components_body, hdb, hg] at hfail

/-- Witness for C1 amended at a concrete input: empty slot, database
construction fails at time 0; the failed pair is stored and returned. -/
theorem C1_construction_failure_poisons_cache_witness :
    (init_components_body ⟨true, Except.error "boom", Except.ok ⟨1⟩⟩).1 = (none, none) ∧
    (init_components ⟨true, Except.error "boom", Except.ok ⟨1⟩⟩ ⟨none⟩ 0).1 = (none, none) :=
  ⟨by decide,
   (C1_construction_failure_poisons_cache ⟨true, Except.error "boom", Except.ok ⟨1⟩⟩
      ⟨none⟩ 0 1 (by decide) (by decide) (by decide)).1⟩

/-- C3 counterexample: on a rerun at time 10 (the singleton entry is 10s old,
well within its 3600s TTL) with the refresh button pressed and the refresh
succeeding, the rebuild runs (a `refreshDatabase` event is in the trace) but
the `st.cache_resource` slot still holds the original entry with `createdAt =
0` — it is neither discarded nor replaced — and the next `init_components`
call at time 20 returns the OLD pair with an empty trace. This contradicts
"unconditionally discards the Component Cache's current entry … and installs a
new singleton entry with a fresh createdAt". -/
theorem C3_counterexample :
    (main ⟨true, Except.ok ⟨0⟩, Except.ok ⟨0⟩, Except.ok ⟨7⟩,
        fun _ _ => Except.error "unused", fun _ _ => Except.error "unused",
        "Python", false, true, false, "", 500⟩
      ⟨some ⟨(some ⟨0⟩, some ⟨0⟩), 0⟩⟩ ⟨Cache.empty, Cache.empty⟩ 10).2.1
      = ⟨some ⟨(some ⟨0⟩, some ⟨0⟩), 0⟩⟩ ∧
    Event.refreshDatabase ∈
      (main ⟨true, Except.ok ⟨0⟩, Except.ok ⟨0⟩, Except.ok ⟨7⟩,
          fun _ _ => Except.error "unused", fun _ _ => Except.error "unused",
          "Python", false, true, false, "", 500⟩
        ⟨some ⟨(some ⟨0⟩, some ⟨0⟩), 0⟩⟩ ⟨Cache.empty, Cache.empty⟩ 10).2.2.2 ∧
    init_components ⟨true, Except.ok ⟨0⟩, Except.ok ⟨0⟩⟩
        ⟨some ⟨(some ⟨0⟩, some ⟨0⟩), 0⟩⟩ 20
      = ((some ⟨0⟩, some ⟨0⟩), ⟨some ⟨(some ⟨0⟩, some ⟨0⟩), 0⟩⟩, []) := by decide

/-- C3 amended: the explicit database refresh rebuilds only the store handle
and rebinds it locally for the rest of the current run (the model handle is
not touched), wraps the rebuild in a `"refresh_database"` timing record, and
leaves the Component Cache's singleton slot untouched: after any full rerun
the slot is exactly what `init_components` alone produced, whatever the
refresh button did. -/
theorem C3_refresh_rebuilds_local_handle_only
    (cuda : Bool) (newDb db : DB) (env : RunEnv) (rc : ResourceCacheState)
    (s : AppState) (now : Nat) :
    refresh_database_click cuda (Except.ok newDb) db
      = (newDb,
         [Event.monitorStart "refresh_database", Event.refreshDatabase,
          Event.monitorEnd "refresh_database",
          Event.stSuccess "Database refreshed successfully!"]
         ++ (if cuda then [Event.clearMemory] else [])) ∧
    (main env rc s now).2.1
      = (init_components ⟨env.cudaAvailable, env.buildDb, env.buildGen⟩ rc now).2.1 := by
  constructor
  · rfl
  · simp only [main]
    split
    · split <;> rfl
    · rfl

/-- C10: whenever `init_components` yields no store handle or no model handle,
`main` halts via `st.stop` right after initialization: the run result is
`stopped` and the trace contains no retrieval and no generation call. -/
theorem C10_halt_on_missing_handles
    (env : RunEnv) (rc : ResourceCacheState) (s : AppState) (now : Nat)
    (h : (init_components ⟨env.cudaAvailable, env.buildDb, env.buildGen⟩ rc now).1.1 = none ∨
         (init_components ⟨env.cudaAvailable, env.buildDb, env.buildGen⟩ rc now).1.2 = none) :
    (main env rc s now).1 = RunResult.stopped ∧
    (∀ q k, Event.similaritySearch q k ∉ (main env rc s now).2.2.2) ∧
    (∀ p L, Event.generate p L ∉ (main env rc s now).2.2.2) := by
  have hinit : ∀ q k p L,
      Event.similaritySearch q k ∉
        (init_components ⟨env.cudaAvailable, env.buildDb, env.buildGen⟩ rc now).2.2 ∧
      Event.generate p L ∉
        (init_components ⟨env.cudaAvailable, env.buildDb, env.buildGen⟩ rc now).2.2 := by
    intro q k p L
    unfold init_components
    rcases hl : componentCacheLookup rc now with _ | v
    · rcases hdb : env.buildDb with e | d
      · rcases hcu : env.cudaAvailable with _ | _ <;>
          simp [hl, init_components_body, hdb, hcu]
      · rcases hg : env.buildGen with e' | g <;>
          rcases hcu : env.cudaAvailable with _ | _ <;>
            simp [hl, init_components_body, hdb, hg, hcu]
    · simp [hl]
  simp only [main]
  rcases hr : (init_components ⟨env.cudaAvailable, env.buildDb, env.buildGen⟩ rc now)
    with ⟨⟨odb, ogen⟩, rc', evs⟩
  rw [hr] at h
  simp only at h
  have hev : ∀ q k p L, Event.similaritySearch q k ∉ evs ∧ Event.generate p L ∉ evs := by
    intro q k p L
    have := hinit q k p L
    rw [hr] at this
    exact this
  rcases odb with _ | db0
  · simp only [hr]
    refine ⟨by trivial, ?_, ?_⟩ <;> intro a b <;> simp [List.mem_append, (hev a b a b).1, (hev a b a b).2]
  · rcases ogen with _ | g0
    · simp only [hr]
      refine ⟨by trivial, ?_, ?_⟩ <;> intro a b <;> simp [List.mem_append, (hev a b a b).1, (hev a b a b).2]
    · rcases h with h | h <;> simp at h

/-- Witness for C10 at a concrete input: database construction fails on an
empty slot, so the run stops. -/
theorem C10_halt_on_missing_handles_witness :
    (init_components ⟨true, Except.error "boom", Except.ok ⟨1⟩⟩ ⟨none⟩ 0).1.1 = none ∧
    (main ⟨true, Except.error "boom", Except.ok ⟨1⟩, Except.ok ⟨7⟩,
        fun _ _ => Except.ok [], fun _ _ => Except.ok "X",
        "Python", true, false, true, "task", 500⟩
      ⟨none⟩ ⟨Cache.empty, Cache.empty⟩ 0).1 = RunResult.stopped :=
  ⟨by decide,
   (C10_halt_on_missing_handles
      ⟨true, Except.error "boom", Except.ok ⟨1⟩, Except.ok ⟨7⟩,
        fun _ _ => Except.ok [], fun _ _ => Except.ok "X",
        "Python", true, false, true, "task", 500⟩
      ⟨none⟩ ⟨Cache.empty, Cache.empty⟩ 0 (Or.inl (by decide))).1⟩

/-- C8 counterexample: in the successful explicit-refresh flow (CUDA
available), the events preceding the database rebuild are just the opening of
the `"refresh_database"` monitor record — in particular `clear_memory` is NOT
called before the rebuild, contradicting "once before discarding the singleton
pair during an explicit refresh" (the full successful-refresh trace has
`clear_memory` only after the rebuild, and the singleton pair is never
discarded). -/
theorem C8_counterexample :
    (refresh_database_click true (Except.ok ⟨1⟩) ⟨0⟩).2.takeWhile
        (fun e => !decide (e = Event.refreshDatabase))
      = [Event.monitorStart "refresh_database"] ∧
    Event.clearMemory ∉ (refresh_database_click true (Except.ok ⟨1⟩) ⟨0⟩).2.takeWhile
        (fun e => !decide (e = Event.refreshDatabase)) := by decide

/-- C8 amended: with CUDA available, `GPUManager.clear_memory` (the
accelerator release) is invoked exactly at: (1) once inside `init_components`
right after the `"init_components"` record opens and before any construction;
(2) once at the start of a request before retrieval/generation and (3) once at
its end after a successful generation flow (the request trace is exactly one
leading and one trailing `clear_memory` with none in between); and (4) once at
the END of a successful explicit database refresh, after the rebuild — not
before discarding the singleton pair, which the refresh never discards. -/
theorem C8_clear_memory_call_points
    (bdb : Except String DB) (bgen : Except String Gen)
    (env : ReqEnv) (s : AppState) (db newDb dbl : DB) (generator : Gen)
    (q : String) (ml now : Nat) (code : String) (expl : Option String)
    (hcuda : env.cudaAvailable = true)
    (hok : (handle_request env s db generator q ml now).1 = ReqOutcome.success code expl) :
    (∃ rest, (init_components_body ⟨true, bdb, bgen⟩).2
        = [Event.monitorStart "init_components", Event.clearMemory] ++ rest ∧
      Event.clearMemory ∉ rest) ∧
    (∃ mid, (handle_request env s db generator q ml now).2.2
        = Event.clearMemory :: (mid ++ [Event.clearMemory]) ∧
      Event.clearMemory ∉ mid) ∧
    refresh_database_click true (Except.ok newDb) dbl
      = (newDb, [Event.monitorStart "refresh_database", Event.refreshDatabase,
          Event.monitorEnd "refresh_database",
          Event.stSuccess "Database refreshed successfully!", Event.clearMemory]) := by
  refine ⟨?_,
    handle_request_success_sandwich env s db generator q ml now code expl hcuda hok, rfl⟩
  rcases bdb with e | d
  · exact ⟨[Event.createOrLoadDb,
      Event.logError ("Error initializing components: " ++ e),
      Event.stError ("Error initializing components: " ++ e)],
      by simp [init_components_body], by simp⟩
  · rcases bgen with e | g
    · exact ⟨[Event.createOrLoadDb, Event.createGenerator,
        Event.logError ("Error initializing components: " ++ e),
        Event.stError ("Error initializing components: " ++ e)],
        by simp [init_components_body], by simp⟩
    · exact ⟨[Event.createOrLoadDb, Event.createGenerator,
        Event.monitorEnd "init_components"],
        by simp [init_components_body], by simp⟩

/-- Witness for C8 amended at a concrete input: a successful request with CUDA
available has the clear-memory sandwich in its trace. -/
theorem C8_clear_memory_call_points_witness :
    (handle_request ⟨true, fun _ _ => Except.ok [⟨"d"⟩], fun _ _ => Except.ok "CODE",
          "Python", false⟩
        ⟨Cache.empty, Cache.empty⟩ ⟨0⟩ ⟨0⟩ "task" 500 0).1
      = ReqOutcome.success "CODE" none ∧
    (∃ mid, (handle_request ⟨true, fun _ _ => Except.ok [⟨"d"⟩], fun _ _ => Except.ok "CODE",
          "Python", false⟩
        ⟨Cache.empty, Cache.empty⟩ ⟨0⟩ ⟨0⟩ "task" 500 0).2.2
        = Event.clearMemory :: (mid ++ [Event.clearMemory]) ∧
      Event.clearMemory ∉ mid) :=
  ⟨by decide,
   (C8_clear_memory_call_points (Except.ok ⟨0⟩) (Except.ok ⟨0⟩)
      ⟨true, fun _ _ => Except.ok [⟨"d"⟩], fun _ _ => Except.ok "CODE", "Python", false⟩
      ⟨Cache.empty, Cache.empty⟩ ⟨0⟩ ⟨1⟩ ⟨1⟩ ⟨0⟩ "task" 500 0 "CODE" none rfl
      (by decide)).2.1⟩

/-- C6: a failure at any failing step of the request flow (retrieval,
generation, or explanation; prompt assembly is pure string construction and
cannot fail) aborts only that request — it yields a user-visible error
(`st.error`), never halts the app (`st.stop` is not in the trace), and leaves
both result caches in their last-known-good state: a retrieval failure leaves
the state exactly as it was; a generation failure keeps only the successful
retrieval write; an explanation failure keeps the retrieval write and the
successful main-generation write, with nothing written by the failing step
itself. A subsequent request R2 for a different query against the state left
by a failed request then succeeds normally. -/
theorem C6_failure_isolation
    (env env2 : ReqEnv) (s : AppState) (db : DB) (generator : Gen)
    (q1 q2 : String) (ml ml2 now now2 : Nat) (e : String)
    (docs2 : List Document) (code2 : String)
    (envg : ReqEnv) (sg : AppState) (dbg : DB) (gg : Gen) (qg : String)
    (mlg nowg : Nat) (docsg : List Document) (eg : String)
    (enve : ReqEnv) (se : AppState) (dbe : DB) (ge : Gen) (qe : String)
    (mle nowe : Nat) (docse : List Document) (codee ee : String)
    (hmiss1 : s.queryCache.lookupValid (db, q1, 3) now resultCacheTTL = none)
    (hfail : env.search q1 3 = Except.error e)
    (hmiss2 : s.queryCache.lookupValid (db, q2, 3) now2 resultCacheTTL = none)
    (hok2 : env2.search q2 3 = Except.ok docs2)
    (hgen2 : s.genCache.lookupValid
        (generator,
         build_prompt env2.language q2
           (String.intercalate "\n" (List.map Document.page_content docs2)),
         ml2) now2 resultCacheTTL = none)
    (hmodel2 : env2.model
        (build_prompt env2.language q2
          (String.intercalate "\n" (List.map Document.page_content docs2)))
        (adjusted_length
          (build_prompt env2.language q2
            (String.intercalate "\n" (List.map Document.page_content docs2))))
      = Except.ok code2)
    (hie2 : env2.includeExplanation = false)
    (hgmiss : sg.queryCache.lookupValid (dbg, qg, 3) nowg resultCacheTTL = none)
    (hgok : envg.search qg 3 = Except.ok docsg)
    (hgenmissg : sg.genCache.lookupValid
        (gg,
         build_prompt envg.language qg
           (String.intercalate "\n" (List.map Document.page_content docsg)),
         mlg) nowg resultCacheTTL = none)
    (hgmodel : envg.model
        (build_prompt envg.language qg
          (String.intercalate "\n" (List.map Document.page_content docsg)))
        (adjusted_length
          (build_prompt envg.language qg
            (String.intercalate "\n" (List.map Document.page_content docsg))))
      = Except.error eg)
    (hemiss : se.queryCache.lookupValid (dbe, qe, 3) nowe resultCacheTTL = none)
    (heok : enve.search qe 3 = Except.ok docse)
    (hegenmiss : se.genCache.lookupValid
        (ge,
         build_prompt enve.language qe
           (String.intercalate "\n" (List.map Document.page_content docse)),
         mle) nowe resultCacheTTL = none)
    (hemodel1 : enve.model
        (build_prompt enve.language qe
          (String.intercalate "\n" (List.map Document.page_content docse)))
        (adjusted_length
          (build_prompt enve.language qe
            (String.intercalate "\n" (List.map Document.page_content docse))))
      = Except.ok codee)
    (hie : enve.includeExplanation = true)
    (hexplmiss : (se.genCache.insert
        (ge,
         build_prompt enve.language qe
           (String.intercalate "\n" (List.map Document.page_content docse)),
         mle) codee nowe).lookupValid
        (ge, "Explain this " ++ enve.language ++ " code:\n" ++ codee, 300)
        nowe resultCacheTTL = none)
    (hemodel2 : enve.model
        ("Explain this " ++ enve.language ++ " code:\n" ++ codee)
        (adjusted_length ("Explain this " ++ enve.language ++ " code:\n" ++ codee))
      = Except.error ee) :
    (handle_request env s db generator q1 ml now).1 = ReqOutcome.failure e ∧
    (handle_request env s db generator q1 ml now).2.1 = s ∧
    Event.stError ("An error occurred: " ++ e)
      ∈ (handle_request env s db generator q1 ml now).2.2 ∧
    Event.stStop ∉ (handle_request env s db generator q1 ml now).2.2 ∧
    (handle_request env2 (handle_request env s db generator q1 ml now).2.1
        db generator q2 ml2 now2).1
      = ReqOutcome.success code2 none ∧
    (handle_request envg sg dbg gg qg mlg nowg).1 = ReqOutcome.failure eg ∧
    (handle_request envg sg dbg gg qg mlg nowg).2.1
      = ⟨sg.queryCache.insert (dbg, qg, 3) docsg nowg, sg.genCache⟩ ∧
    Event.stError ("An error occurred: " ++ eg)
      ∈ (handle_request envg sg dbg gg qg mlg nowg).2.2 ∧
    Event.stStop ∉ (handle_request envg sg dbg gg qg mlg nowg).2.2 ∧
    (handle_request enve se dbe ge qe mle nowe).1 = ReqOutcome.failure ee ∧
    (handle_request enve se dbe ge qe mle nowe).2.1
      = ⟨se.queryCache.insert (dbe, qe, 3) docse nowe,
         se.genCache.insert
           (ge,
            build_prompt enve.language qe
              (String.intercalate "\n" (List.map Document.page_content docse)),
            mle) codee nowe⟩ ∧
    Event.stError ("An error occurred: " ++ ee)
      ∈ (handle_request enve se dbe ge qe mle nowe).2.2 ∧
    Event.stStop ∉ (handle_request enve se dbe ge qe mle nowe).2.2 := by
  have hr1 : get_similar_docs s.queryCache db q1 3 now env.search
      = (Except.error e, s.queryCache,
         [Event.monitorStart "similarity_search", Event.similaritySearch q1 3]) := by
    unfold get_similar_docs cacheDataCall
    simp [hmiss1, hfail]
  have hreq1 : handle_request env s db generator q1 ml now
      = (ReqOutcome.failure e, s,
         (if env.cudaAvailable = true then [Event.clearMemory] else []) ++
           [Event.monitorStart "similarity_search", Event.similaritySearch q1 3,
            Event.logError ("Error during code generation: " ++ e),
            Event.stError ("An error occurred: " ++ e)]) := by
    unfold handle_request
    rw [hr1]
    simp
  have hr2 : get_similar_docs s.queryCache db q2 3 now2 env2.search
      = (Except.ok docs2, s.queryCache.insert (db, q2, 3) docs2 now2,
         [Event.monitorStart "similarity_search", Event.similaritySearch q2 3,
          Event.monitorEnd "similarity_search"]) := by
    unfold get_similar_docs cacheDataCall
    simp [hmiss2, hok2]
  have hg2 : generate_code_cached s.genCache generator
      (build_prompt env2.language q2
        (String.intercalate "\n" (List.map Document.page_content docs2)))
      ml2 now2 env2.model
      = (Except.ok code2,
         s.genCache.insert
           (generator,
            build_prompt env2.language q2
              (String.intercalate "\n" (List.map Document.page_content docs2)),
            ml2) code2 now2,
         [Event.monitorStart "code_generation",
          Event.generate
            (build_prompt env2.language q2
              (String.intercalate "\n" (List.map Document.page_content docs2)))
            (adjusted_length
              (build_prompt env2.language q2
                (String.intercalate "\n" (List.map Document.page_content docs2)))),
          Event.monitorEnd "code_generation"]) := by
    unfold generate_code_cached cacheDataCall
    simp [hgen2, hmodel2]
  have hrg1 : get_similar_docs sg.queryCache dbg qg 3 nowg envg.search
      = (Except.ok docsg, sg.queryCache.insert (dbg, qg, 3) docsg nowg,
         [Event.monitorStart "similarity_search", Event.similaritySearch qg 3,
          Event.monitorEnd "similarity_search"]) := by
    unfold get_similar_docs cacheDataCall
    simp [hgmiss, hgok]
  have hrg2 : generate_code_cached sg.genCache gg
      (build_prompt envg.language qg
        (String.intercalate "\n" (List.map Document.page_content docsg)))
      mlg nowg envg.model
      = (Except.error eg, sg.genCache,
         [Event.monitorStart "code_generation",
          Event.generate
            (build_prompt envg.language qg
              (String.intercalate "\n" (List.map Document.page_content docsg)))
            (adjusted_length
              (build_prompt envg.language qg
                (String.intercalate "\n" (List.map Document.page_content docsg))))]) := by
    unfold generate_code_cached cacheDataCall
    simp [hgenmissg, hgmodel]
  have hre1 : get_similar_docs se.queryCache dbe qe 3 nowe enve.search
      = (Except.ok docse, se.queryCache.insert (dbe, qe, 3) docse nowe,
         [Event.monitorStart "similarity_search", Event.similaritySearch qe 3,
          Event.monitorEnd "similarity_search"]) := by
    unfold get_similar_docs cacheDataCall
    simp [hemiss, heok]
  have hre2 : generate_code_cached se.genCache ge
      (build_prompt enve.language qe
        (String.intercalate "\n" (List.map Document.page_content docse)))
      mle nowe enve.model
      = (Except.ok codee,
         se.genCache.insert
           (ge,
            build_prompt enve.language qe
              (String.intercalate "\n" (List.map Document.page_content docse)),
            mle) codee nowe,
         [Event.monitorStart "code_generation",
          Event.generate
            (build_prompt enve.language qe
              (String.intercalate "\n" (List.map Document.page_content docse)))
            (adjusted_length
              (build_prompt enve.language qe
                (String.intercalate "\n" (List.map Document.page_content docse)))),
          Event.monitorEnd "code_generation"]) := by
    unfold generate_code_cached cacheDataCall
    simp [hegenmiss, hemodel1]
  have hre3 : generate_code_cached
      (se.genCache.insert
        (ge,
         build_prompt enve.language qe
           (String.intercalate "\n" (List.map Document.page_content docse)),
         mle) codee nowe)
      ge ("Explain this " ++ enve.language ++ " code:\n" ++ codee) 300 nowe enve.model
      = (Except.error ee,
         se.genCache.insert
           (ge,
            build_prompt enve.language qe
              (String.intercalate "\n" (List.map Document.page_content docse)),
            mle) codee nowe,
         [Event.monitorStart "code_generation",
          Event.generate ("Explain this " ++ enve.language ++ " code:\n" ++ codee)
            (adjusted_length
              ("Explain this " ++ enve.language ++ " code:\n" ++ codee))]) := by
    unfold generate_code_cached cacheDataCall
    simp [hexplmiss, hemodel2]
  refine ⟨by rw [hreq1], by rw [hreq1], ?_, ?_, ?_, ?_, ?_, ?_, ?_, ?_, ?_, ?_, ?_⟩
  · rw [hreq1]
    rcases env.cudaAvailable with _ | _ <;> simp
  · rw [hreq1]
    rcases env.cudaAvailable with _ | _ <;> simp
  · rw [hreq1]
    simp only [handle_request, hr2, hg2, hie2]
    simp
  · simp [handle_request, hrg1, hrg2]
  · simp [handle_request, hrg1, hrg2]
  · rcases hcu : envg.cudaAvailable with _ | _ <;>
      simp [handle_request, hrg1, hrg2, hcu]
  · rcases hcu : envg.cudaAvailable with _ | _ <;>
      simp [handle_request, hrg1, hrg2, hcu]
  · simp [handle_request, hre1, hre2, hre3, hie]
  · simp [handle_request, hre1, hre2, hre3, hie]
  · rcases hcu : enve.cudaAvailable with _ | _ <;>
      simp [handle_request, hre1, hre2, hre3, hie, hcu]
  · rcases hcu : enve.cudaAvailable with _ | _ <;>
      simp [handle_request, hre1, hre2, hre3, hie, hcu]

/-- Witness for C6 at concrete inputs: a request failing at retrieval, a
request failing at the main generation, a request failing at the explanation
generation, and a follow-up request that succeeds against the state left by
the retrieval failure. -/
theorem C6_failure_isolation_witness :
    (handle_request ⟨true, fun _ _ => Except.error "retrieval down",
          fun _ _ => Except.ok "CODE2", "Python", false⟩
        ⟨Cache.empty, Cache.empty⟩ ⟨0⟩ ⟨0⟩ "q1" 500 0).1
      = ReqOutcome.failure "retrieval down" ∧
    (handle_request ⟨true, fun _ _ => Except.ok [⟨"d2"⟩],
          fun _ _ => Except.ok "CODE2", "Python", false⟩
        (handle_request ⟨true, fun _ _ => Except.error "retrieval down",
            fun _ _ => Except.ok "CODE2", "Python", false⟩
          ⟨Cache.empty, Cache.empty⟩ ⟨0⟩ ⟨0⟩ "q1" 500 0).2.1
        ⟨0⟩ ⟨0⟩ "q2" 500 0).1
      = ReqOutcome.success "CODE2" none ∧
    (handle_request ⟨true, fun _ _ => Except.ok [⟨"d"⟩],
          fun _ _ => Except.error "gen down", "Python", false⟩
        ⟨Cache.empty, Cache.empty⟩ ⟨0⟩ ⟨0⟩ "qg" 500 0).1
      = ReqOutcome.failure "gen down" ∧
    (handle_request ⟨true, fun _ _ => Except.ok [⟨"d"⟩],
          fun p _ => if p = build_prompt "Python" "qe" "d"
            then Except.ok "CODE" else Except.error "expl down",
          "Python", true⟩
        ⟨Cache.empty, Cache.empty⟩ ⟨0⟩ ⟨0⟩ "qe" 500 0).1
      = ReqOutcome.failure "expl down" := by
  have h := C6_failure_isolation
    ⟨true, fun _ _ => Except.error "retrieval down",
      fun _ _ => Except.ok "CODE2", "Python", false⟩
    ⟨true, fun _ _ => Except.ok [⟨"d2"⟩],
      fun _ _ => Except.ok "CODE2", "Python", false⟩
    ⟨Cache.empty, Cache.empty⟩ ⟨0⟩ ⟨0⟩ "q1" "q2" 500 500 0 0
    "retrieval down" [⟨"d2"⟩] "CODE2"
    ⟨true, fun _ _ => Except.ok [⟨"d"⟩],
      fun _ _ => Except.error "gen down", "Python", false⟩
    ⟨Cache.empty, Cache.empty⟩ ⟨0⟩ ⟨0⟩ "qg" 500 0 [⟨"d"⟩] "gen down"
    ⟨true, fun _ _ => Except.ok [⟨"d"⟩],
      fun p _ => if p = build_prompt "Python" "qe" "d"
        then Except.ok "CODE" else Except.error "expl down",
      "Python", true⟩
    ⟨Cache.empty, Cache.empty⟩ ⟨0⟩ ⟨0⟩ "qe" 500 0 [⟨"d"⟩] "CODE" "expl down"
    (by decide) rfl (by decide) rfl (by decide) rfl rfl
    (by decide) rfl (by decide) rfl
    (by decide) rfl (by decide) rfl rfl (by decide) rfl
  exact ⟨h.1, h.2.2.2.2.1, h.2.2.2.2.2.1, h.2.2.2.2.2.2.2.2.2.1⟩

end CodeHelper
